import Mathlib

/-!
Shallow embedding of `src/maintenance/zabbix_add_host_maintenance.py`.

The remote Zabbix JSON-RPC endpoint is modelled by a `ZabbixAPI` record of
response functions (one per JSON-RPC method the script uses).  Every embedded
operation returns the value the Python function produces — as an `Except`,
since the Python signals failure by raising exceptions — paired with the
ordered list of JSON-RPC requests it issued, so that theorems can speak about
which remote calls happen and in which order.
-/

/-- Python `str.strip()`: drop leading and trailing whitespace. -/
def pyStrip (s : String) : String :=
  String.mk (((s.data.dropWhile Char.isWhitespace).reverse.dropWhile Char.isWhitespace).reverse)

/-- Worker for `pySplitComma`, accumulating the current field in reverse. -/
def splitCommaAux : List Char → List Char → List String
  | [], acc => [String.mk acc.reverse]
  | c :: cs, acc =>
    if c = ',' then String.mk acc.reverse :: splitCommaAux cs []
    else splitCommaAux cs (c :: acc)

/-- Python `s.split(',')`: split on every comma; the empty string yields `[""]`. -/
def pySplitComma (s : String) : List String :=
  splitCommaAux s.data []

/-- Python `int(...)` applied to the digit group captured by the regex. -/
def digitsVal (digits : List Char) : Nat :=
  digits.foldl (fun acc c => acc * 10 + (c.toNat - 48)) 0

/-- A JSON-RPC response envelope: either an `error` field (the script reads its
`data` member) or a `result` payload. -/
inductive RpcResult (α : Type) where
  | err (data : String)
  | ok (res : α)
deriving Repr, DecidableEq

/-- One element of a `host.get` response: the `hostid` and `host` fields. -/
structure Host where
  hostid : String
  host : String
deriving Repr, DecidableEq

/-- One element of a `hostgroup.get` response; the script only reads the
`hosts` member selected via `selectHosts`. -/
structure GroupResult where
  hosts : List Host
deriving Repr, DecidableEq

/-- One time-period descriptor of a `maintenance.create` request. -/
structure TimePeriod where
  timeperiod_type : Nat
  period : Nat
deriving Repr, DecidableEq

/-- The `params` object of a `maintenance.create` request. -/
structure CreateParams where
  name : String
  active_since : Nat
  active_till : Nat
  hostids : List String
  timeperiods : List TimePeriod
deriving Repr, DecidableEq

/-- The `result` payload of `maintenance.create`, `maintenance.update` and
`maintenance.delete`: an object with a `maintenanceids` list. -/
structure MaintenanceIdsResult where
  maintenanceids : List String
deriving Repr, DecidableEq

/-- One element of a `maintenance.get` response. -/
structure MaintTask where
  maintenanceid : String
  name : String
  active_since : Nat
  active_till : Nat
deriving Repr, DecidableEq

/-- The remote endpoint, as the response it gives to each request the script
can issue.  `hostGetByName` returns the list of `hostid` fields of the hosts
matching the exact-name filter. -/
structure ZabbixAPI where
  hostGetAll : RpcResult (List Host)
  hostGetByName : String → RpcResult (List String)
  hostgroupGet : String → RpcResult (List GroupResult)
  maintenanceCreate : CreateParams → RpcResult MaintenanceIdsResult
  maintenanceUpdate : String → String → RpcResult MaintenanceIdsResult
  maintenanceGet : RpcResult (List MaintTask)
  maintenanceDelete : List String → RpcResult MaintenanceIdsResult

/-- A JSON-RPC request issued by the script, with the parameters that vary. -/
inductive RemoteCall where
  | hostGetAll
  | hostGetByName (hostName : String)
  | hostgroupGet (groupName : String)
  | maintenanceCreate (params : CreateParams)
  | maintenanceUpdate (maintenanceid : String) (name : String)
  | maintenanceGet
  | maintenanceDelete (ids : List String)
deriving Repr, DecidableEq

/-- The exceptions the script raises, one constructor per raise site, carrying
the data interpolated into the message. -/
inductive ZbxError where
  | invalidTimeFormat (timeStr : String)
  | unsupportedTimeUnit (unit : Char)
  | errorFetchingAllHosts (data : String)
  | errorFetchingHostId (hostName : String) (data : String)
  | hostNotFound (hostName : String)
  | errorFetchingGroup (groupName : String) (data : String)
  | groupNotFound (groupName : String)
  | errorCreatingMaintenance (data : String)
  | errorUpdatingMaintenance (data : String)
  | errorListingMaintenance (data : String)
  | errorDeletingMaintenance (ids : List String) (data : String)
  | indexError
  | mustSpecifyTarget
  | mustSpecifyOperation
deriving Repr, DecidableEq

/-- The message text of each exception (Python f-strings; the quote characters
around the examples in the time-format message are omitted, and the Python
`repr` of the id list in the delete message is rendered as a comma join). -/
def ZbxError.message : ZbxError → String
  | .invalidTimeFormat t => "Invalid time format: " ++ t ++ ". Use 1h, 30m, etc."
  | .unsupportedTimeUnit u => "Unsupported time unit: " ++ String.mk [u]
  | .errorFetchingAllHosts d => "Error fetching all hosts: " ++ d
  | .errorFetchingHostId n d => "Error fetching host ID for " ++ n ++ ": " ++ d
  | .hostNotFound n => "Host " ++ n ++ " not found"
  | .errorFetchingGroup g d => "Error fetching hosts from group " ++ g ++ ": " ++ d
  | .groupNotFound g => "Host group " ++ g ++ " not found"
  | .errorCreatingMaintenance d => "Error creating maintenance: " ++ d
  | .errorUpdatingMaintenance d => "Error updating maintenance name: " ++ d
  | .errorListingMaintenance d => "Error listing maintenance tasks: " ++ d
  | .errorDeletingMaintenance ids d =>
      "Error deleting maintenance tasks " ++ String.intercalate ", " ids ++ ": " ++ d
  | .indexError => "list index out of range"
  | .mustSpecifyTarget => "You must specify either --host, --group, or * for all hosts."
  | .mustSpecifyOperation =>
      "You must specify either --list, --delete, or provide time for maintenance creation."

/-- The maximal digit run at the start of the string, then the rest; this is
exactly what `re.match(r"(\d+)([hm])", s)` inspects, since the character class
cannot match a digit and `re.match` anchors at the start only.  Returns the
captured value and unit on a match. -/
def reMatchTime (time_str : String) : Option (Nat × Char) :=
  match time_str.data.dropWhile Char.isDigit with
  | [] => none
  | u :: _ =>
    if time_str.data.takeWhile Char.isDigit = [] then none
    else if u = 'h' then some (digitsVal (time_str.data.takeWhile Char.isDigit), 'h')
    else if u = 'm' then some (digitsVal (time_str.data.takeWhile Char.isDigit), 'm')
    else none

/-- `parse_time_arg` (lines 22-35): parse "1h" / "30m" style durations into
seconds; the final branch is the script's defensive unsupported-unit raise. -/
def parse_time_arg (time_str : String) : Except ZbxError Nat :=
  match reMatchTime time_str with
  | none => .error (.invalidTimeFormat time_str)
  | some (value, unit) =>
    if unit = 'h' then .ok (value * 3600)
    else if unit = 'm' then .ok (value * 60)
    else .error (.unsupportedTimeUnit unit)

/-- Python dict insertion: an existing key keeps its position and gets the new
value; a fresh key is appended. -/
def dictInsert (m : List (String × String)) (k v : String) : List (String × String) :=
  if m.any (fun p => p.1 == k) then
    m.map (fun p => if p.1 == k then (k, v) else p)
  else m ++ [(k, v)]

/-- `get_all_host_ids` (lines 38-55): one unfiltered `host.get`, building the
dict comprehension name ↦ hostid. -/
def get_all_host_ids (api : ZabbixAPI) :
    Except ZbxError (List (String × String)) × List RemoteCall :=
  (match api.hostGetAll with
   | .err d => .error (.errorFetchingAllHosts d)
   | .ok hosts => .ok (hosts.foldl (fun m h => dictInsert m h.host h.hostid) []),
   [.hostGetAll])

/-- `get_host_id` (lines 58-80): exact-name `host.get`; empty result raises
host-not-found, otherwise the first match's hostid is taken. -/
def get_host_id (api : ZabbixAPI) (host_name : String) :
    Except ZbxError String × List RemoteCall :=
  (match api.hostGetByName host_name with
   | .err d => .error (.errorFetchingHostId host_name d)
   | .ok hostids =>
     match hostids with
     | [] => .error (.hostNotFound host_name)
     | hid :: _ => .ok hid,
   [.hostGetByName host_name])

/-- `get_host_ids_by_groups` loop body (lines 83-112): one `hostgroup.get` per
group name, merging member hosts into the running dict; an error envelope or an
empty result aborts the loop. -/
def get_host_ids_by_groups_go (api : ZabbixAPI) (groups : List String)
    (host_ids : List (String × String)) :
    Except ZbxError (List (String × String)) × List RemoteCall :=
  match groups with
  | [] => (.ok host_ids, [])
  | g :: rest =>
    match api.hostgroupGet g with
    | .err d => (.error (.errorFetchingGroup g d), [.hostgroupGet g])
    | .ok groupResults =>
      match groupResults with
      | [] => (.error (.groupNotFound g), [.hostgroupGet g])
      | gr :: _ =>
        ((get_host_ids_by_groups_go api rest
            (gr.hosts.foldl (fun m h => dictInsert m h.host h.hostid) host_ids)).1,
         .hostgroupGet g ::
          (get_host_ids_by_groups_go api rest
            (gr.hosts.foldl (fun m h => dictInsert m h.host h.hostid) host_ids)).2)

/-- `get_host_ids_by_groups` (lines 83-112), started from the empty dict. -/
def get_host_ids_by_groups (api : ZabbixAPI) (group_names : List String) :
    Except ZbxError (List (String × String)) × List RemoteCall :=
  get_host_ids_by_groups_go api group_names []

/-- The list comprehension of `main` line 271: look up each comma-separated
host name (stripped) left to right; the first exception aborts the rest. -/
def resolve_host_list (api : ZabbixAPI) (host_names : List String) :
    Except ZbxError (List String) × List RemoteCall :=
  match host_names with
  | [] => (.ok [], [])
  | n :: rest =>
    match (get_host_id api (pyStrip n)).1 with
    | .error e => (.error e, (get_host_id api (pyStrip n)).2)
    | .ok hid =>
      match (resolve_host_list api rest).1 with
      | .error e =>
          (.error e, (get_host_id api (pyStrip n)).2 ++ (resolve_host_list api rest).2)
      | .ok hids =>
          (.ok (hid :: hids), (get_host_id api (pyStrip n)).2 ++ (resolve_host_list api rest).2)

/-- The provisional window name of line 120, built from the creation time. -/
def unique_name (start_time : Nat) : String :=
  "Maintenance for selected hosts - " ++ Nat.repr start_time

/-- The post-rename window name of line 149, embedding the assigned id. -/
def updated_name (maintenanceid : String) : String :=
  "Maintenance for selected hosts - Maintenance ID:" ++ maintenanceid

/-- The `maintenance.create` params built at lines 123-137. -/
def create_params (start_time : Nat) (host_ids : List String) (duration : Nat) :
    CreateParams :=
  ⟨unique_name start_time, start_time, start_time + duration, host_ids,
   [⟨0, duration⟩]⟩

/-- `create_maintenance` (lines 115-167): create, read `maintenanceids[0]`
(an empty list would raise IndexError, caught like any exception), then rename;
an error envelope from either call raises. `now` stands for `int(time.time())`. -/
def create_maintenance (api : ZabbixAPI) (now : Nat) (host_ids : List String)
    (duration : Nat) : Except ZbxError String × List RemoteCall :=
  match api.maintenanceCreate (create_params now host_ids duration) with
  | .err d => (.error (.errorCreatingMaintenance d),
               [.maintenanceCreate (create_params now host_ids duration)])
  | .ok r =>
    match r.maintenanceids with
    | [] => (.error .indexError, [.maintenanceCreate (create_params now host_ids duration)])
    | mid :: _ =>
      match api.maintenanceUpdate mid (updated_name mid) with
      | .err d => (.error (.errorUpdatingMaintenance d),
                   [.maintenanceCreate (create_params now host_ids duration),
                    .maintenanceUpdate mid (updated_name mid)])
      | .ok _ => (.ok mid,
                  [.maintenanceCreate (create_params now host_ids duration),
                   .maintenanceUpdate mid (updated_name mid)])

/-- What `main` reports for one invocation on success. -/
inductive MainOutcome where
  | listed (tasks : List MaintTask)
  | deleted (ids : List String)
  | created (maintenanceid : String)
deriving Repr, DecidableEq

/-- The create-and-report tail shared by the three create branches of `main`
(line 276): run `create_maintenance` and report the new window id. -/
def create_and_report (api : ZabbixAPI) (now : Nat) (host_ids : List String)
    (duration : Nat) : Except ZbxError MainOutcome × List RemoteCall :=
  match (create_maintenance api now host_ids duration).1 with
  | .error e => (.error e, (create_maintenance api now host_ids duration).2)
  | .ok mid => (.ok (.created mid), (create_maintenance api now host_ids duration).2)

/-- The argparse result fields `main` consults (all default to absent). -/
structure Args where
  host : Option String
  group : Option String
  time : Option String
  list : Bool
  delete : Option String
deriving Repr, DecidableEq

/-- Python truthiness of an optional string: present and non-empty. -/
def truthy : Option String → Bool
  | none => false
  | some s => s != ""

/-- The dispatch of `main` (lines 240-280), after the config has been loaded:
`if args.list / elif args.delete / elif args.time`, and inside the create flow
`if args.group / elif args.host == '*' / elif args.host / else raise`. -/
def mainRun (api : ZabbixAPI) (now : Nat) (args : Args) :
    Except ZbxError MainOutcome × List RemoteCall :=
  if args.list then
    match api.maintenanceGet with
    | .err d => (.error (.errorListingMaintenance d), [.maintenanceGet])
    | .ok tasks => (.ok (.listed tasks), [.maintenanceGet])
  else if truthy args.delete then
    match api.maintenanceDelete ((pySplitComma (args.delete.getD "")).map pyStrip) with
    | .err d => (.error (.errorDeletingMaintenance
                  ((pySplitComma (args.delete.getD "")).map pyStrip) d),
                 [.maintenanceDelete ((pySplitComma (args.delete.getD "")).map pyStrip)])
    | .ok r => (.ok (.deleted r.maintenanceids),
                [.maintenanceDelete ((pySplitComma (args.delete.getD "")).map pyStrip)])
  else if truthy args.time then
    match parse_time_arg (args.time.getD "") with
    | .error e => (.error e, [])
    | .ok duration =>
      if truthy args.group then
        match (get_host_ids_by_groups api
                ((pySplitComma (args.group.getD "")).map pyStrip)).1 with
        | .error e =>
            (.error e,
             (get_host_ids_by_groups api ((pySplitComma (args.group.getD "")).map pyStrip)).2)
        | .ok hosts =>
            ((create_and_report api now (hosts.map Prod.snd) duration).1,
             (get_host_ids_by_groups api
               ((pySplitComma (args.group.getD "")).map pyStrip)).2 ++
              (create_and_report api now (hosts.map Prod.snd) duration).2)
      else if args.host = some "*" then
        match (get_all_host_ids api).1 with
        | .error e => (.error e, (get_all_host_ids api).2)
        | .ok hosts =>
            ((create_and_report api now (hosts.map Prod.snd) duration).1,
             (get_all_host_ids api).2 ++
              (create_and_report api now (hosts.map Prod.snd) duration).2)
      else if truthy args.host then
        match (resolve_host_list api (pySplitComma (args.host.getD ""))).1 with
        | .error e => (.error e, (resolve_host_list api (pySplitComma (args.host.getD ""))).2)
        | .ok host_ids =>
            ((create_and_report api now host_ids duration).1,
             (resolve_host_list api (pySplitComma (args.host.getD ""))).2 ++
              (create_and_report api now host_ids duration).2)
      else (.error .mustSpecifyTarget, [])
  else (.error .mustSpecifyOperation, [])

/-- The process exit status: `main` wraps everything in `try/except Exception`
(lines 282-283) that only prints, and never calls `sys.exit`, so the script
ends normally — exit status 0 — on both success and failure. -/
def scriptExitCode (api : ZabbixAPI) (now : Nat) (args : Args) : Nat :=
  match (mainRun api now args).1 with
  | .ok _ => 0
  | .error _ => 0

/-- The diagnostic line the `except` branch prints (line 283), if any. -/
def printedErrorLine (api : ZabbixAPI) (now : Nat) (args : Args) : Option String :=
  match (mainRun api now args).1 with
  | .ok _ => none
  | .error e => some ("Error: " ++ e.message)

/-! ### Concrete endpoint fixtures used by counterexamples and witnesses -/

/-- An endpoint that accepts `maintenance.create` (assigning id 42) but rejects
the follow-up `maintenance.update` rename. -/
def apiRenameFails : ZabbixAPI :=
  ⟨.ok [], fun _ => .ok [], fun _ => .ok [],
   fun _ => .ok ⟨["42"]⟩, fun _ _ => .err "rename refused",
   .ok [], fun _ => .ok ⟨[]⟩⟩

/-- An endpoint on which every group exists but has no member hosts, and
maintenance creation succeeds with id 7. -/
def apiEmptyGroup : ZabbixAPI :=
  ⟨.ok [], fun _ => .ok [], fun _ => .ok [⟨[]⟩],
   fun _ => .ok ⟨["7"]⟩, fun _ _ => .ok ⟨["7"]⟩,
   .ok [], fun _ => .ok ⟨[]⟩⟩

/-- An endpoint on which every group resolves to the single host h1 (id 10),
and maintenance creation succeeds with id 5. -/
def apiGroupHost : ZabbixAPI :=
  ⟨.ok [], fun _ => .ok [], fun _ => .ok [⟨[⟨"10", "h1"⟩]⟩],
   fun _ => .ok ⟨["5"]⟩, fun _ _ => .ok ⟨["5"]⟩,
   .ok [], fun _ => .ok ⟨[]⟩⟩

/-- An endpoint knowing exactly the hosts h1 (id 10) and h2 (id 20); every
other exact-name lookup returns zero matches. -/
def apiHosts : ZabbixAPI :=
  ⟨.ok [⟨"10", "h1"⟩],
   fun n => if n = "h1" then .ok ["10"] else if n = "h2" then .ok ["20"] else .ok [],
   fun _ => .ok [],
   fun _ => .ok ⟨["9"]⟩, fun _ _ => .ok ⟨["9"]⟩,
   .ok [], fun _ => .ok ⟨[]⟩⟩

/-! ### C1 — create-then-rename failure handling -/

/-- C1 counterexample: on an endpoint where `maintenance.create` succeeds with
id 42 but the rename `maintenance.update` returns an error envelope, the create
operation does NOT succeed: `create_maintenance` raises the update error
(line 164) instead of reporting the window as created with id 42. -/
theorem rename_failure_aborts_create_cex :
    (create_maintenance apiRenameFails 1000 ["10"] 3600).1 =
      .error (.errorUpdatingMaintenance "rename refused") ∧
    (create_maintenance apiRenameFails 1000 ["10"] 3600).1 ≠ .ok "42" :=
  ⟨rfl, fun h => nomatch h⟩

/-- C1 (corrected): whenever the `maintenance.create` call succeeds (returning
at least one id) and the subsequent rename `maintenance.update` call fails, the
whole create operation fails with the update error — the rename failure is
fatal, not a non-fatal warning, and no window id is reported. -/
theorem rename_failure_is_fatal (api : ZabbixAPI) (now : Nat) (host_ids : List String)
    (duration : Nat) (mid : String) (rest : List String) (d : String)
    (hc : api.maintenanceCreate (create_params now host_ids duration) = .ok ⟨mid :: rest⟩)
    (hu : api.maintenanceUpdate mid (updated_name mid) = .err d) :
    (create_maintenance api now host_ids duration).1 =
      .error (.errorUpdatingMaintenance d) := by
  simp [create_maintenance, hc, hu]

/-- Witness for `rename_failure_is_fatal` at a concrete endpoint. -/
theorem rename_failure_is_fatal_witness :
    (create_maintenance apiRenameFails 1000 ["10"] 3600).1 =
      .error (.errorUpdatingMaintenance "rename refused") :=
  rename_failure_is_fatal apiRenameFails 1000 ["10"] 3600 "42" [] "rename refused" rfl rfl

/-! ### C4 — process exit status -/

/-- C4 counterexample: an invocation whose duration string is malformed fails
(the validation error is raised), yet the process exit status is 0, because
`main` catches every exception and only prints it (lines 282-283). -/
theorem failure_exit_zero_cex :
    (mainRun apiRenameFails 0 ⟨none, none, some "abc", false, none⟩).1 =
      .error (.invalidTimeFormat "abc") ∧
    scriptExitCode apiRenameFails 0 ⟨none, none, some "abc", false, none⟩ = 0 :=
  ⟨rfl, rfl⟩

/-- C4 (corrected): the failure diagnostic text is printed to the operator
(prefixed "Error: "), but the process exits with status zero on success AND on
every validation or remote failure — `main` swallows all exceptions and never
sets a nonzero exit code. -/
theorem exit_code_always_zero (api : ZabbixAPI) (now : Nat) (args : Args) :
    scriptExitCode api now args = 0 ∧
    ∀ e, (mainRun api now args).1 = .error e →
      printedErrorLine api now args = some ("Error: " ++ e.message) := by
  constructor
  · unfold scriptExitCode
    cases (mainRun api now args).1 <;> rfl
  · intro e he
    unfold printedErrorLine
    rw [he]

/-- Witness for `exit_code_always_zero` at a failing concrete invocation. -/
theorem exit_code_always_zero_witness :
    scriptExitCode apiRenameFails 0 ⟨none, none, some "abc", false, none⟩ = 0 ∧
    printedErrorLine apiRenameFails 0 ⟨none, none, some "abc", false, none⟩ =
      some ("Error: " ++ (ZbxError.invalidTimeFormat "abc").message) :=
  ⟨(exit_code_always_zero apiRenameFails 0 ⟨none, none, some "abc", false, none⟩).1,
   (exit_code_always_zero apiRenameFails 0 ⟨none, none, some "abc", false, none⟩).2
     (.invalidTimeFormat "abc") rfl⟩

/-! ### C9 — operation selection -/

/-- C9 counterexample: requesting list, delete AND create (time plus host) in
one invocation raises no ConflictingOperations error; the script silently
performs only the list operation. -/
theorem conflicting_operations_no_error_cex :
    mainRun apiRenameFails 100 ⟨some "h1", none, some "1h", true, some "5"⟩ =
      (.ok (.listed []), [.maintenanceGet]) := rfl

/-- C9 (corrected): operation selection is not validated for exclusivity and
there is no ConflictingOperations error; overlapping requests are resolved by
the fixed priority list > delete > create (`if/elif` chain, lines 240-280), the
lower-priority operations being silently ignored; only an invocation requesting
none of the three fails (with the must-specify-operation error, no remote call). -/
theorem operation_priority :
    (∀ (api : ZabbixAPI) (now : Nat) (h g t d : Option String),
      mainRun api now ⟨h, g, t, true, d⟩ = mainRun api now ⟨none, none, none, true, none⟩) ∧
    (∀ (api : ZabbixAPI) (now : Nat) (h g t d : Option String), truthy d = true →
      mainRun api now ⟨h, g, t, false, d⟩ = mainRun api now ⟨none, none, none, false, d⟩) ∧
    (∀ (api : ZabbixAPI) (now : Nat) (h g t d : Option String),
      truthy t = false → truthy d = false →
      mainRun api now ⟨h, g, t, false, d⟩ = (.error .mustSpecifyOperation, [])) := by
  refine ⟨fun api now h g t d => rfl, ?_, ?_⟩
  · intro api now h g t d hd
    simp [mainRun, hd]
  · intro api now h g t d ht hd
    simp [mainRun, ht, hd]

/-- Witness for `operation_priority` at concrete conflicting invocations. -/
theorem operation_priority_witness :
    mainRun apiRenameFails 100 ⟨some "h1", none, some "1h", true, some "5"⟩ =
      mainRun apiRenameFails 100 ⟨none, none, none, true, none⟩ ∧
    mainRun apiRenameFails 100 ⟨some "h1", none, some "1h", false, some "5"⟩ =
      mainRun apiRenameFails 100 ⟨none, none, none, false, some "5"⟩ ∧
    mainRun apiRenameFails 100 ⟨some "h1", none, none, false, none⟩ =
      (.error .mustSpecifyOperation, []) :=
  ⟨operation_priority.1 apiRenameFails 100 (some "h1") none (some "1h") (some "5"),
   operation_priority.2.1 apiRenameFails 100 (some "h1") none (some "1h") (some "5") rfl,
   operation_priority.2.2 apiRenameFails 100 (some "h1") none none none rfl rfl⟩

/-! ### C5 — the duration parser -/

/-- On a list that decomposes as an all-`p` block followed by a non-`p`
element, `takeWhile` returns exactly the block and `dropWhile` the rest. -/
theorem takeWhile_dropWhile_of_decomp (p : Char → Bool) (ds : List Char) (u : Char)
    (r : List Char) (hds : ∀ c ∈ ds, p c = true) (hu : p u = false) :
    (ds ++ u :: r).takeWhile p = ds ∧ (ds ++ u :: r).dropWhile p = u :: r := by
  induction ds with
  | nil => simp [List.takeWhile_cons, List.dropWhile_cons, hu]
  | cons c cs ih =>
    have hc : p c = true := hds c (by simp)
    have ih2 := ih (fun x hx => hds x (by simp [hx]))
    simp [List.takeWhile_cons, List.dropWhile_cons, hc, ih2.1, ih2.2]

/-- Any match produced by the duration regex carries unit h or m. -/
theorem reMatchTime_unit (s : String) (v : Nat) (u : Char)
    (h : reMatchTime s = some (v, u)) : u = 'h' ∨ u = 'm' := by
  unfold reMatchTime at h
  cases hr : s.data.dropWhile Char.isDigit with
  | nil => rw [hr] at h; exact nomatch h
  | cons u0 r0 =>
    rw [hr] at h
    by_cases hds : s.data.takeWhile Char.isDigit = []
    · simp [hds] at h
    · by_cases hu : u0 = 'h'
      · simp [hds, hu] at h
        exact Or.inl h.2.symm
      · by_cases hum : u0 = 'm'
        · simp [hds, hu, hum] at h
          exact Or.inr h.2.symm
        · simp [hds, hu, hum] at h

/-- C5 counterexample: strings with trailing garbage after the digits-unit
prefix are accepted, not rejected with MalformedDuration — `re.match` is not
anchored at the end, so "1hx" and "1h30m" both parse as one hour. -/
theorem trailing_garbage_accepted_cex :
    parse_time_arg "1hx" = .ok 3600 ∧ parse_time_arg "1h30m" = .ok 3600 :=
  ⟨rfl, rfl⟩

/-- C5 (corrected): the parser accepts exactly the strings whose PREFIX is one
or more digits immediately followed by h or m — any trailing characters after
the unit letter are ignored — returning digits × 3600 for h and digits × 60
for m; every string without such a prefix fails with the malformed-duration
error carrying the offending string (the unsupported-unit branch is
unreachable). -/
theorem parse_time_arg_charact (s : String) :
    (∀ n, parse_time_arg s = .ok n ↔
      ∃ (ds : List Char) (u : Char) (r : List Char),
        s.data = ds ++ u :: r ∧ ds ≠ [] ∧ (∀ c ∈ ds, c.isDigit = true) ∧
        ((u = 'h' ∧ n = digitsVal ds * 3600) ∨ (u = 'm' ∧ n = digitsVal ds * 60))) ∧
    (∀ e, parse_time_arg s = .error e → e = .invalidTimeFormat s) := by
  have hsplit : s.data.takeWhile Char.isDigit ++ s.data.dropWhile Char.isDigit = s.data :=
    List.takeWhile_append_dropWhile Char.isDigit s.data
  constructor
  · intro n
    constructor
    · intro h
      cases hr : s.data.dropWhile Char.isDigit with
      | nil =>
        have hg : parse_time_arg s = .error (.invalidTimeFormat s) := by
          unfold parse_time_arg reMatchTime
          rw [hr]
        rw [hg] at h
        exact nomatch h
      | cons u0 r0 =>
        by_cases hds : s.data.takeWhile Char.isDigit = []
        · have hg : parse_time_arg s = .error (.invalidTimeFormat s) := by
            unfold parse_time_arg reMatchTime
            rw [hr]
            simp [hds]
          rw [hg] at h
          exact nomatch h
        · by_cases hu : u0 = 'h'
          · have hg : parse_time_arg s =
                .ok (digitsVal (s.data.takeWhile Char.isDigit) * 3600) := by
              unfold parse_time_arg reMatchTime
              rw [hr]
              simp [hds, hu]
            rw [hg] at h
            injection h with h'
            subst h'
            refine ⟨s.data.takeWhile Char.isDigit, 'h', r0, ?_, hds,
              fun c hc => List.mem_takeWhile_imp hc, Or.inl ⟨rfl, rfl⟩⟩
            conv_lhs => rw [← hsplit]
            rw [hr, hu]
          · by_cases hum : u0 = 'm'
            · have hg : parse_time_arg s =
                  .ok (digitsVal (s.data.takeWhile Char.isDigit) * 60) := by
                unfold parse_time_arg reMatchTime
                rw [hr]
                simp [hds, hu, hum]
              rw [hg] at h
              injection h with h'
              subst h'
              refine ⟨s.data.takeWhile Char.isDigit, 'm', r0, ?_, hds,
                fun c hc => List.mem_takeWhile_imp hc, Or.inr ⟨rfl, rfl⟩⟩
              conv_lhs => rw [← hsplit]
              rw [hr, hum]
            · have hg : parse_time_arg s = .error (.invalidTimeFormat s) := by
                unfold parse_time_arg reMatchTime
                rw [hr]
                simp [hds, hu, hum]
              rw [hg] at h
              exact nomatch h
    · rintro ⟨ds, u, r, hsd, hne, hdig, hcase⟩
      have hu_not : Char.isDigit u = false := by
        rcases hcase with ⟨rfl, _⟩ | ⟨rfl, _⟩ <;> decide
      have htk := takeWhile_dropWhile_of_decomp Char.isDigit ds u r hdig hu_not
      rcases hcase with ⟨rfl, rfl⟩ | ⟨rfl, rfl⟩
      · unfold parse_time_arg reMatchTime
        rw [hsd, htk.2, htk.1]
        simp [hne]
      · unfold parse_time_arg reMatchTime
        rw [hsd, htk.2, htk.1]
        simp [hne]
  · intro e he
    cases hm : reMatchTime s with
    | none =>
      unfold parse_time_arg at he
      rw [hm] at he
      injection he with he'
      exact he'.symm
    | some vu =>
      obtain ⟨v, u⟩ := vu
      have hu := reMatchTime_unit s v u hm
      unfold parse_time_arg at he
      rw [hm] at he
      rcases hu with rfl | rfl
      · simp at he
      · simp at he

/-- Witness for `parse_time_arg_charact`: 2h parses to 7200 seconds via the
characterization, and a concrete malformed string maps to the
malformed-duration error. -/
theorem parse_time_arg_charact_witness :
    parse_time_arg "2h" = .ok 7200 ∧
    ZbxError.invalidTimeFormat "1x" = .invalidTimeFormat "1x" :=
  ⟨((parse_time_arg_charact "2h").1 7200).mpr
      ⟨['2'], 'h', [], rfl, by decide, by decide, Or.inl ⟨rfl, by decide⟩⟩,
   (parse_time_arg_charact "1x").2 (.invalidTimeFormat "1x") rfl⟩

/-! ### C6 — deduplication in target resolution -/

/-- Python dict insertion preserves uniqueness of the keys. -/
theorem keys_dictInsert_nodup (m : List (String × String)) (k v : String)
    (h : (m.map Prod.fst).Nodup) : ((dictInsert m k v).map Prod.fst).Nodup := by
  unfold dictInsert
  by_cases hc : m.any (fun p => p.1 == k) = true
  · rw [if_pos hc]
    have hkeys : (m.map (fun p => if p.1 == k then (k, v) else p)).map Prod.fst =
        m.map Prod.fst := by
      rw [List.map_map]
      apply List.map_congr_left
      intro p _
      by_cases hp : p.1 = k
      · simp [hp]
      · simp [hp]
    rw [hkeys]
    exact h
  · rw [if_neg hc]
    rw [List.map_append, List.nodup_append]
    refine ⟨h, List.nodup_singleton k, ?_⟩
    intro a ha hb
    simp only [List.map_cons, List.map_nil, List.mem_singleton] at hb
    subst hb
    rw [List.mem_map] at ha
    obtain ⟨p, hp, hpk⟩ := ha
    exact hc (List.any_eq_true.mpr ⟨p, hp, by simp [hpk]⟩)

/-- Folding dict insertions over a host list preserves key uniqueness. -/
theorem foldl_dictInsert_nodup (hosts : List Host) :
    ∀ acc : List (String × String), (acc.map Prod.fst).Nodup →
      ((hosts.foldl (fun m h => dictInsert m h.host h.hostid) acc).map Prod.fst).Nodup := by
  induction hosts with
  | nil => intro acc h; exact h
  | cons hh tt ih =>
    intro acc h
    exact ih _ (keys_dictInsert_nodup acc hh.host hh.hostid h)

/-- The group-resolution loop keeps the running dict free of duplicate keys. -/
theorem get_host_ids_by_groups_go_nodup (api : ZabbixAPI) (groups : List String) :
    ∀ (acc d : List (String × String)), (acc.map Prod.fst).Nodup →
      (get_host_ids_by_groups_go api groups acc).1 = .ok d → (d.map Prod.fst).Nodup := by
  induction groups with
  | nil =>
    intro acc d h hok
    unfold get_host_ids_by_groups_go at hok
    injection hok with h'
    subst h'
    exact h
  | cons g rest ih =>
    intro acc d h hok
    unfold get_host_ids_by_groups_go at hok
    cases hg : api.hostgroupGet g with
    | err dd =>
      simp only [hg] at hok
      exact nomatch hok
    | ok grs =>
      simp only [hg] at hok
      cases grs with
      | nil => exact nomatch hok
      | cons gr grs2 =>
        exact ih _ d (foldl_dictInsert_nodup gr.hosts acc h) hok

/-- C6 counterexample: the hostname-resolution path of `main` (line 271) does
not build a mapping at all but a plain list, and a repeated input name yields
the same identifier twice — duplicate identifiers in the eventual request. -/
theorem hostname_resolution_duplicates_cex :
    (resolve_host_list apiHosts ["h1", "h1"]).1 = .ok ["10", "10"] ∧
    ¬(["10", "10"] : List String).Nodup :=
  ⟨rfl, by decide⟩

/-- C6 (corrected): resolve-all and resolve-by-groups return dicts keyed by
display name with no duplicate display names (a host in two requested groups
contributes one entry, last write wins); the resolve-by-hostnames path returns
a bare identifier list in which a repeated input name produces duplicate
identifiers, and identifier values are taken from the responses as-is. -/
theorem group_and_all_maps_nodup_keys :
    (∀ (api : ZabbixAPI) (d : List (String × String)),
      (get_all_host_ids api).1 = .ok d → (d.map Prod.fst).Nodup) ∧
    (∀ (api : ZabbixAPI) (gs : List String) (d : List (String × String)),
      (get_host_ids_by_groups api gs).1 = .ok d → (d.map Prod.fst).Nodup) := by
  constructor
  · intro api d h
    unfold get_all_host_ids at h
    cases hg : api.hostGetAll with
    | err e =>
      simp only [hg] at h
      exact nomatch h
    | ok hosts =>
      simp only [hg] at h
      injection h with h'
      subst h'
      exact foldl_dictInsert_nodup hosts [] (by simp)
  · intro api gs d h
    exact get_host_ids_by_groups_go_nodup api gs [] d (by simp) h

/-- Witness for `group_and_all_maps_nodup_keys` at a concrete endpoint. -/
theorem group_and_all_maps_nodup_keys_witness :
    (([("h1", "10")] : List (String × String)).map Prod.fst).Nodup :=
  group_and_all_maps_nodup_keys.1 apiHosts [("h1", "10")] rfl

/-! ### C7 — trimming and blank host names -/

/-- C7 counterexample: the blank entry is NOT silently skipped: after trimming
it is looked up like any other name, the lookup returns zero matches, and the
batch aborts with host-not-found for the empty name before ever reaching h2. -/
theorem blank_hostname_not_skipped_cex :
    resolve_host_list apiHosts ["h1", "", "  h2  "] =
      (.error (.hostNotFound ""), [.hostGetByName "h1", .hostGetByName ""]) := rfl

/-- C7 (corrected): every input name is trimmed of surrounding whitespace
before lookup, but names that are empty after trimming are NOT skipped: the
head of any non-empty batch — blank or not — always produces an exact-name
lookup of its trimmed form, and when that lookup returns zero matches the
batch fails with host-not-found for the trimmed (possibly empty) name. -/
theorem hostnames_trimmed_not_skipped (api : ZabbixAPI) (name : String)
    (rest : List String) :
    (∃ t, (resolve_host_list api (name :: rest)).2 =
      .hostGetByName (pyStrip name) :: t) ∧
    (api.hostGetByName (pyStrip name) = .ok [] →
      resolve_host_list api (name :: rest) =
        (.error (.hostNotFound (pyStrip name)), [.hostGetByName (pyStrip name)])) := by
  constructor
  · unfold resolve_host_list
    cases h1 : (get_host_id api (pyStrip name)).1 with
    | error e => exact ⟨[], rfl⟩
    | ok hid =>
      cases h2 : (resolve_host_list api rest).1 with
      | error e => exact ⟨(resolve_host_list api rest).2, rfl⟩
      | ok hids => exact ⟨(resolve_host_list api rest).2, rfl⟩
  · intro hb
    have h1 : (get_host_id api (pyStrip name)).1 =
        .error (.hostNotFound (pyStrip name)) := by
      unfold get_host_id
      rw [hb]
    unfold resolve_host_list
    rw [h1]
    rfl

/-- Witness for `hostnames_trimmed_not_skipped`: the blank head of a batch is
looked up, fails, and aborts the rest. -/
theorem hostnames_trimmed_not_skipped_witness :
    resolve_host_list apiHosts ["", "x"] =
      (.error (.hostNotFound ""), [.hostGetByName ""]) :=
  (hostnames_trimmed_not_skipped apiHosts "" ["x"]).2 rfl

/-! ### C8 — fail-fast hostname resolution -/

/-- C8 (confirmed): if every name before `name` resolves to at least one match
and the point lookup for `name` returns zero matches, the batch fails with
host-not-found for that (trimmed) name, no partial result is returned, and the
issued lookups stop exactly at `name`: the names after it are never looked up. -/
theorem host_lookup_fail_fast (api : ZabbixAPI) (pre : List String) (name : String)
    (post : List String)
    (hpre : ∀ n ∈ pre, ∃ hid t, api.hostGetByName (pyStrip n) = .ok (hid :: t))
    (hmiss : api.hostGetByName (pyStrip name) = .ok []) :
    (resolve_host_list api (pre ++ name :: post)).1 =
      .error (.hostNotFound (pyStrip name)) ∧
    (resolve_host_list api (pre ++ name :: post)).2 =
      pre.map (fun n => RemoteCall.hostGetByName (pyStrip n)) ++
        [.hostGetByName (pyStrip name)] := by
  induction pre with
  | nil =>
    have h1 : (get_host_id api (pyStrip name)).1 =
        .error (.hostNotFound (pyStrip name)) := by
      unfold get_host_id
      rw [hmiss]
    rw [List.nil_append]
    unfold resolve_host_list
    rw [h1]
    exact ⟨rfl, rfl⟩
  | cons p ps ih =>
    obtain ⟨hid, t, hp⟩ := hpre p (by simp)
    have h1 : (get_host_id api (pyStrip p)).1 = .ok hid := by
      unfold get_host_id
      rw [hp]
    have ih2 := ih (fun n hn => hpre n (by simp [hn]))
    rw [List.cons_append]
    constructor
    · unfold resolve_host_list
      rw [h1, ih2.1]
    · unfold resolve_host_list
      rw [h1, ih2.1]
      simp only [ih2.2, get_host_id, List.map_cons, List.singleton_append,
        List.cons_append, List.nil_append]

/-- Witness for `host_lookup_fail_fast`: h1 resolves, doesnotexist has zero
matches, h3 is never looked up. -/
theorem host_lookup_fail_fast_witness :
    (resolve_host_list apiHosts ["h1", "doesnotexist", "h3"]).1 =
      .error (.hostNotFound "doesnotexist") ∧
    (resolve_host_list apiHosts ["h1", "doesnotexist", "h3"]).2 =
      [.hostGetByName "h1", .hostGetByName "doesnotexist"] := by
  have h := host_lookup_fail_fast apiHosts ["h1"] "doesnotexist" ["h3"]
    (by
      intro n hn
      rw [List.mem_singleton] at hn
      subst hn
      exact ⟨"10", [], rfl⟩) rfl
  exact ⟨h.1, h.2⟩

/-! ### C2 — empty target set -/

/-- Whatever the endpoint answers, `create_maintenance` always issues the
`maintenance.create` request (with the computed params) as its first call. -/
theorem create_maintenance_trace_head (api : ZabbixAPI) (now : Nat)
    (ids : List String) (dur : Nat) :
    ∃ t, (create_maintenance api now ids dur).2 =
      .maintenanceCreate (create_params now ids dur) :: t := by
  cases hc : api.maintenanceCreate (create_params now ids dur) with
  | err d => exact ⟨[], by simp [create_maintenance, hc]⟩
  | ok r =>
    cases hr : r.maintenanceids with
    | nil => exact ⟨[], by simp [create_maintenance, hc, hr]⟩
    | cons mid rest =>
      cases hu : api.maintenanceUpdate mid (updated_name mid) with
      | err d =>
        exact ⟨[.maintenanceUpdate mid (updated_name mid)],
          by simp [create_maintenance, hc, hr, hu]⟩
      | ok r2 =>
        exact ⟨[.maintenanceUpdate mid (updated_name mid)],
          by simp [create_maintenance, hc, hr, hu]⟩

/-- Reporting does not change the calls issued by the create phase. -/
theorem create_and_report_trace (api : ZabbixAPI) (now : Nat)
    (ids : List String) (dur : Nat) :
    (create_and_report api now ids dur).2 = (create_maintenance api now ids dur).2 := by
  unfold create_and_report
  cases h : (create_maintenance api now ids dur).1 with
  | error e => rfl
  | ok mid => rfl

/-- C2 counterexample: a create invocation over a group that exists but has no
member hosts does NOT fail with EmptyTargetSet — no such check exists; a
`maintenance.create` request carrying an empty host id list is issued and the
operation reports success. -/
theorem empty_group_still_creates_cex :
    mainRun apiEmptyGroup 100 ⟨none, some "emptyg", some "1h", false, none⟩ =
      (.ok (.created "7"),
       [.hostgroupGet "emptyg",
        .maintenanceCreate (create_params 100 [] 3600),
        .maintenanceUpdate "7" (updated_name "7")]) := rfl

/-- C2 (corrected): when target resolution yields zero host identifiers (e.g.
an existing but empty group), the create flow does not fail locally: it
proceeds to issue a `maintenance.create` request whose hostids list is empty,
immediately after the group lookup; acceptance is left to the remote system. -/
theorem empty_targets_issue_create (api : ZabbixAPI) (now : Nat)
    (g ts gname : String) (dur : Nat) (hg : g ≠ "") (hts : ts ≠ "")
    (hparse : parse_time_arg ts = .ok dur)
    (hsplit : (pySplitComma g).map pyStrip = [gname])
    (hgrp : api.hostgroupGet gname = .ok [⟨[]⟩]) :
    (mainRun api now ⟨none, some g, some ts, false, none⟩).2.take 2 =
      [.hostgroupGet gname, .maintenanceCreate (create_params now [] dur)] := by
  have hgo : get_host_ids_by_groups api [gname] = (.ok [], [.hostgroupGet gname]) := by
    unfold get_host_ids_by_groups get_host_ids_by_groups_go
    rw [hgrp]
    rfl
  obtain ⟨t, hct⟩ := create_maintenance_trace_head api now [] dur
  unfold mainRun
  simp [truthy, hts, hg, hparse, hsplit, hgo, create_and_report_trace, hct]

/-- Witness for `empty_targets_issue_create` at a concrete endpoint. -/
theorem empty_targets_issue_create_witness :
    (mainRun apiEmptyGroup 100 ⟨none, some "emptyg", some "1h", false, none⟩).2.take 2 =
      [.hostgroupGet "emptyg", .maintenanceCreate (create_params 100 [] 3600)] :=
  empty_targets_issue_create apiEmptyGroup 100 "emptyg" "1h" "emptyg" 3600
    (by decide) (by decide) rfl rfl rfl

/-! ### C3 — target-selection modes -/

/-- C3 counterexample: an invocation supplying BOTH an explicit host list and a
group list raises no AmbiguousTarget error and does make remote calls: the
group list silently wins and the host argument is ignored. -/
theorem host_and_group_no_error_cex :
    mainRun apiGroupHost 100 ⟨some "h1", some "g1", some "1h", false, none⟩ =
      (.ok (.created "5"),
       [.hostgroupGet "g1",
        .maintenanceCreate (create_params 100 ["10"] 3600),
        .maintenanceUpdate "5" (updated_name "5")]) := rfl

/-- C3 (corrected): supplying more than one target-selection mode is not
rejected — there is no AmbiguousTarget error; the `if/elif` chain gives groups
priority over the host argument, which is then ignored entirely.  Only an
invocation supplying NO mode (host and group both absent or empty) fails, with
the must-specify-target error, after duration parsing and before any remote
call. -/
theorem target_mode_priority :
    (∀ (api : ZabbixAPI) (now : Nat) (h g t : Option String), truthy g = true →
      mainRun api now ⟨h, g, t, false, none⟩ = mainRun api now ⟨none, g, t, false, none⟩) ∧
    (∀ (api : ZabbixAPI) (now : Nat) (h g : Option String) (ts : String) (dur : Nat),
      truthy h = false → truthy g = false → parse_time_arg ts = .ok dur → ts ≠ "" →
      mainRun api now ⟨h, g, some ts, false, none⟩ = (.error .mustSpecifyTarget, [])) := by
  constructor
  · intro api now h g t hg
    unfold mainRun
    cases ht : truthy t with
    | false => simp [ht]
    | true =>
      simp only [ht]
      cases hp : parse_time_arg (t.getD "") with
      | error e => simp [hp]
      | ok dur => simp [hp, hg]
  · intro api now h g ts dur hh hg hparse hts
    have hts2 : truthy (some ts) = true := by simp [truthy, hts]
    cases h with
    | none =>
      have hne : ((none : Option String) = some "*") = False := eq_false (by decide)
      unfold mainRun
      simp [hh, hts2, hparse, hg, hne]
    | some s =>
      have hs : s = "" := by simpa [truthy] using hh
      subst hs
      have hne : ((some "" : Option String) = some "*") = False := eq_false (by decide)
      have hd : truthy none = false := rfl
      unfold mainRun
      simp [hh, hd, hts2, hparse, hg, hne]

/-- Witness for `target_mode_priority` at concrete invocations. -/
theorem target_mode_priority_witness :
    mainRun apiGroupHost 100 ⟨some "h1", some "g1", some "1h", false, none⟩ =
      mainRun apiGroupHost 100 ⟨none, some "g1", some "1h", false, none⟩ ∧
    mainRun apiGroupHost 100 ⟨none, none, some "1h", false, none⟩ =
      (.error .mustSpecifyTarget, []) :=
  ⟨target_mode_priority.1 apiGroupHost 100 (some "h1") (some "g1") (some "1h") rfl,
   target_mode_priority.2 apiGroupHost 100 none none "1h" 3600 rfl rfl rfl (by decide)⟩

/-! ### C10 — the wildcard-all path -/

/-- The group-resolution loop only ever issues `hostgroup.get` requests. -/
theorem hostGetAll_not_in_groups_go (api : ZabbixAPI) (gs : List String) :
    ∀ acc, RemoteCall.hostGetAll ∉ (get_host_ids_by_groups_go api gs acc).2 := by
  induction gs with
  | nil => intro acc; simp [get_host_ids_by_groups_go]
  | cons g rest ih =>
    intro acc
    cases hg : api.hostgroupGet g with
    | err d => simp [get_host_ids_by_groups_go, hg]
    | ok grs =>
      cases grs with
      | nil => simp [get_host_ids_by_groups_go, hg]
      | cons gr grs2 => simp [get_host_ids_by_groups_go, hg, ih]

/-- Group resolution never issues the unfiltered `host.get`. -/
theorem hostGetAll_not_in_groups (api : ZabbixAPI) (gs : List String) :
    RemoteCall.hostGetAll ∉ (get_host_ids_by_groups api gs).2 :=
  hostGetAll_not_in_groups_go api gs []

/-- The create phase only issues `maintenance.create` / `maintenance.update`. -/
theorem hostGetAll_not_in_create (api : ZabbixAPI) (now : Nat) (ids : List String)
    (dur : Nat) : RemoteCall.hostGetAll ∉ (create_maintenance api now ids dur).2 := by
  cases hc : api.maintenanceCreate (create_params now ids dur) with
  | err d => simp [create_maintenance, hc]
  | ok r =>
    cases hr : r.maintenanceids with
    | nil => simp [create_maintenance, hc, hr]
    | cons mid rest =>
      cases hu : api.maintenanceUpdate mid (updated_name mid) with
      | err d => simp [create_maintenance, hc, hr, hu]
      | ok r2 => simp [create_maintenance, hc, hr, hu]

/-- Reporting adds no calls, so it never issues the unfiltered `host.get`. -/
theorem hostGetAll_not_in_car (api : ZabbixAPI) (now : Nat) (ids : List String)
    (dur : Nat) : RemoteCall.hostGetAll ∉ (create_and_report api now ids dur).2 := by
  rw [create_and_report_trace]
  exact hostGetAll_not_in_create api now ids dur

/-- A point lookup issues exactly its own `host.get` request. -/
theorem get_host_id_trace (api : ZabbixAPI) (n : String) :
    (get_host_id api n).2 = [.hostGetByName n] := rfl

/-- One unfolding step of `resolve_host_list` on a non-empty batch. -/
theorem resolve_host_list_cons (api : ZabbixAPI) (n : String) (rest : List String) :
    resolve_host_list api (n :: rest) =
      match (get_host_id api (pyStrip n)).1 with
      | .error e => (.error e, (get_host_id api (pyStrip n)).2)
      | .ok hid =>
        match (resolve_host_list api rest).1 with
        | .error e =>
            (.error e, (get_host_id api (pyStrip n)).2 ++ (resolve_host_list api rest).2)
        | .ok hids =>
            (.ok (hid :: hids),
             (get_host_id api (pyStrip n)).2 ++ (resolve_host_list api rest).2) := rfl

/-- Hostname resolution only issues exact-name `host.get` lookups. -/
theorem hostGetAll_not_in_resolve (api : ZabbixAPI) (names : List String) :
    RemoteCall.hostGetAll ∉ (resolve_host_list api names).2 := by
  induction names with
  | nil => simp [resolve_host_list]
  | cons n rest ih =>
    rw [resolve_host_list_cons]
    cases h1 : (get_host_id api (pyStrip n)).1 with
    | error e => simp [get_host_id_trace]
    | ok hid =>
      cases h2 : (resolve_host_list api rest).1 with
      | error e => simp [get_host_id_trace, ih]
      | ok hids => simp [get_host_id_trace, ih]

/-- Any non-empty batch issues the lookup of its (stripped) head name first. -/
theorem resolve_host_list_trace_head (api : ZabbixAPI) (n : String) (rest : List String) :
    ∃ tl, (resolve_host_list api (n :: rest)).2 =
      .hostGetByName (pyStrip n) :: tl := by
  unfold resolve_host_list
  cases h1 : (get_host_id api (pyStrip n)).1 with
  | error e => exact ⟨[], rfl⟩
  | ok hid =>
    cases h2 : (resolve_host_list api rest).1 with
    | error e => exact ⟨(resolve_host_list api rest).2, rfl⟩
    | ok hids => exact ⟨(resolve_host_list api rest).2, rfl⟩

/-- When the head lookup succeeds, the batch trace is the head lookup followed
by the trace of the remaining batch. -/
theorem resolve_host_list_trace_cons_ok (api : ZabbixAPI) (n : String)
    (rest : List String) (hid : String)
    (h1 : (get_host_id api (pyStrip n)).1 = .ok hid) :
    (resolve_host_list api (n :: rest)).2 =
      .hostGetByName (pyStrip n) :: (resolve_host_list api rest).2 := by
  rw [resolve_host_list_cons, h1]
  cases h2 : (resolve_host_list api rest).1 with
  | error e => rfl
  | ok hids => rfl

/-- C10 (confirmed): in the create flow the resolve-all path (the unfiltered
`host.get`) is taken exactly when no group is supplied and the host argument is
the single-character string "*"; and in a comma-separated host list that
contains "*" alongside other names, "*" is looked up as a literal host name by
an exact-name `host.get` like any other entry. -/
theorem wildcard_all_iff_exact_star :
    (∀ (api : ZabbixAPI) (now : Nat) (args : Args),
      RemoteCall.hostGetAll ∈ (mainRun api now args).2 ↔
        (args.list = false ∧ truthy args.delete = false ∧ truthy args.time = true ∧
         (∃ dur, parse_time_arg (args.time.getD "") = .ok dur) ∧
         truthy args.group = false ∧ args.host = some "*")) ∧
    (∀ (api : ZabbixAPI) (now : Nat) (hid : String) (t : List String),
      api.hostGetByName "h1" = .ok (hid :: t) →
      RemoteCall.hostGetByName "*" ∈
        (mainRun api now ⟨some "h1,*", none, some "1h", false, none⟩).2) := by
  constructor
  · intro api now args
    obtain ⟨h, g, t, l, d⟩ := args
    unfold mainRun
    cases l with
    | true => cases hmg : api.maintenanceGet <;> simp [hmg]
    | false =>
      cases hd : truthy d with
      | true =>
        cases hdel : api.maintenanceDelete ((pySplitComma (d.getD "")).map pyStrip) with
        | err e => simp [hd, hdel]
        | ok r => simp [hd, hdel]
      | false =>
        cases ht : truthy t with
        | false => simp [hd, ht]
        | true =>
          cases hp : parse_time_arg (t.getD "") with
          | error e => simp [hd, ht, hp]
          | ok dur =>
            cases hg : truthy g with
            | true =>
              cases hgo : (get_host_ids_by_groups api
                  ((pySplitComma (g.getD "")).map pyStrip)).1 with
              | error e =>
                simp [hd, ht, hp, hg, hgo, hostGetAll_not_in_groups]
              | ok hosts =>
                simp [hd, ht, hp, hg, hgo, hostGetAll_not_in_groups,
                  hostGetAll_not_in_car]
            | false =>
              cases h with
              | none =>
                have e0 : truthy (none : Option String) = false := rfl
                simp [hd, ht, hp, hg, e0]
              | some s =>
                by_cases hs : s = "*"
                · subst hs
                  cases hall : (get_all_host_ids api).1 with
                  | error e => simp [hd, ht, hp, hg, hall, get_all_host_ids]
                  | ok hosts => simp [hd, ht, hp, hg, hall, get_all_host_ids]
                · have hne : ((some s : Option String) = some "*") = False := by
                    simp [hs]
                  cases hth : truthy (some s) with
                  | false => simp [hd, ht, hp, hg, hne, hth]
                  | true =>
                    cases hres : (resolve_host_list api (pySplitComma s)).1 with
                    | error e =>
                      simp [hd, ht, hp, hg, hne, hth, hres,
                        hostGetAll_not_in_resolve]
                    | ok hostids =>
                      simp [hd, ht, hp, hg, hne, hth, hres,
                        hostGetAll_not_in_resolve, hostGetAll_not_in_car]
  · intro api now hid t hb
    have h1 : (get_host_id api (pyStrip "h1")).1 = .ok hid := by
      unfold get_host_id
      rw [show pyStrip "h1" = "h1" from rfl, hb]
    have h2 := resolve_host_list_trace_cons_ok api "h1" ["*"] hid h1
    obtain ⟨tl, htl⟩ := resolve_host_list_trace_head api "*" []
    have hmem : RemoteCall.hostGetByName "*" ∈ (resolve_host_list api ["h1", "*"]).2 := by
      rw [h2, htl]
      simp [show pyStrip "*" = "*" from rfl]
    have e3 : parse_time_arg "1h" = .ok 3600 := rfl
    have e4 : ((some "h1,*" : Option String) = some "*") = False := eq_false (by decide)
    have e6 : pySplitComma "h1,*" = ["h1", "*"] := rfl
    unfold mainRun
    cases hres : (resolve_host_list api ["h1", "*"]).1 with
    | error e => simp [truthy, e3, e4, e6, hres, hmem]
    | ok hostids => simp [truthy, e3, e4, e6, hres, hmem]

/-- Witness for `wildcard_all_iff_exact_star`: host "*" alone takes the
resolve-all path; "h1,*" looks "*" up as a literal host name. -/
theorem wildcard_all_iff_exact_star_witness :
    RemoteCall.hostGetAll ∈
      (mainRun apiHosts 100 ⟨some "*", none, some "1h", false, none⟩).2 ∧
    RemoteCall.hostGetByName "*" ∈
      (mainRun apiHosts 100 ⟨some "h1,*", none, some "1h", false, none⟩).2 :=
  ⟨(wildcard_all_iff_exact_star.1 apiHosts 100
      ⟨some "*", none, some "1h", false, none⟩).mpr
     ⟨rfl, rfl, rfl, ⟨3600, rfl⟩, rfl, rfl⟩,
   wildcard_all_iff_exact_star.2 apiHosts 100 "10" [] rfl⟩
